import Mathlib

/-!
Shallow embedding of the litep2p connection-to-protocol multiplexing core
(src/protocol/mod.rs, src/protocol/notification/handle.rs, src/new.rs).

Modelling conventions:
* `PeerId`, `SubstreamId` are `Nat`; `ProtocolName` is `String`; byte vectors
  (`Vec<u8>`) are `List Nat`.
* A `HashMap<K, V>` is embedded as the function `K → Option V`; `insert`,
  `remove` and `get_mut` become pointwise function updates.
* A tokio mpsc channel endpoint held by a sender is embedded as the list of
  messages delivered so far (a mailbox); an awaited `send` appends to it.
  Receiver-side closure is modelled explicitly (a `closed` flag) only where a
  claim depends on send failure; elsewhere the receiver is alive for the whole
  modelled fragment and `send` always succeeds.
* Fallible Rust functions returning `crate::Result<T>` become Lean functions
  returning `Except Error T` paired with the post-state (explicit state
  passing).
-/

abbrev PeerId := Nat
abbrev ProtocolName := String
abbrev SubstreamId := Nat
abbrev RawSubstream := Nat

/-- Substream direction (src/protocol/mod.rs, enum Direction). -/
inductive Direction where
  | Inbound : Direction
  | Outbound : SubstreamId → Direction
deriving DecidableEq, Repr

/-- The error variants of crate::error::Error that the embedded fragment
constructs (the error enum itself lives outside the provided sources; the
variants and their payloads are exactly those used at the use sites in
src/protocol/mod.rs, src/protocol/notification/handle.rs and src/new.rs). -/
inductive Error where
  | ProtocolNotSupported : String → Error
  | ProtocolAlreadyExists : ProtocolName → Error
  | PeerAlreadyExists : PeerId → Error
  | PeerDoesntExist : PeerId → Error
deriving DecidableEq, Repr

/-- Events emitted by the installed protocols to transport
(src/protocol/mod.rs, enum ProtocolEvent). -/
inductive ProtocolEvent where
  | OpenSubstream : ProtocolName → SubstreamId → ProtocolEvent
deriving DecidableEq, Repr

/-- Service provided to protocols by the transport protocol
(src/protocol/mod.rs, struct ConnectionService).

The Rust struct holds `tx: Sender<ProtocolEvent>`, `protocol: ProtocolName`
and `next_substream_id: SubstreamId`.  The sender endpoint is shared state
(the router merged queue): it is passed to `openSubstream` explicitly, so
that the struct itself carries exactly the per-handle data that Rust
`derive(Clone)` copies field-wise (the `Sender` clone aliases the same queue,
the `usize` counter is copied by value). -/
structure ConnectionService where
  protocol : ProtocolName
  next_substream_id : SubstreamId
deriving DecidableEq, Repr

namespace ConnectionService

/-- `ConnectionService::new`: the counter starts at `0usize`. -/
def new (protocol : ProtocolName) : ConnectionService :=
  { protocol := protocol, next_substream_id := 0 }

/-- Rust `derive(Clone)`: field-wise copy.  The counter is a plain `usize`
field, so the clone starts from the cloned value and advances independently. -/
def clone (s : ConnectionService) : ConnectionService := s

/-- `ConnectionService::next_substream_id`: returns the current counter and
increments it. -/
def nextSubstreamId (s : ConnectionService) : SubstreamId × ConnectionService :=
  (s.next_substream_id, { s with next_substream_id := s.next_substream_id + 1 })

/-- `ConnectionService::open_substream`: allocate the next id, send an
`OpenSubstream` request over `tx` (append to the merged queue `queue`),
return the id.  The receiver (connection driver) is alive for the modelled
fragment, so the send succeeds. -/
def openSubstream (s : ConnectionService) (queue : List ProtocolEvent) :
    SubstreamId × ConnectionService × List ProtocolEvent :=
  let (substream_id, s') := s.nextSubstreamId
  (substream_id, s',
    queue ++ [ProtocolEvent.OpenSubstream s.protocol substream_id])

/-- `n` successive `open_substream` calls on the same handle, collecting the
returned ids. -/
def openN : Nat → ConnectionService → List ProtocolEvent →
    List SubstreamId × ConnectionService × List ProtocolEvent
  | 0, s, q => ([], s, q)
  | n + 1, s, q =>
    let (i, s', q') := s.openSubstream q
    let (ids, s'', q'') := openN n s' q'
    (i :: ids, s'', q'')

end ConnectionService

/-- Protocol codec / framing strategy
(crate::codec::ProtocolCodec, as matched on in
ProtocolSet::report_substream_open): `Identity(payload_size)` or
`UnsignedVarint`. -/
inductive ProtocolCodec where
  | Identity : Nat → ProtocolCodec
  | UnsignedVarint : ProtocolCodec
deriving DecidableEq, Repr

/-- A raw substream wrapped by `Framed::new(substream, codec)` at dispatch
time (`Box<dyn Substream>`). -/
inductive BoxedSubstream where
  | framedIdentity : Nat → RawSubstream → BoxedSubstream
  | framedUnsignedVarint : RawSubstream → BoxedSubstream
deriving DecidableEq, Repr

/-- The `match info.codec { ... }` wrapping step of
`ProtocolSet::report_substream_open`. -/
def wrapSubstream (codec : ProtocolCodec) (raw : RawSubstream) : BoxedSubstream :=
  match codec with
  | ProtocolCodec.Identity payload_size => BoxedSubstream.framedIdentity payload_size raw
  | ProtocolCodec.UnsignedVarint => BoxedSubstream.framedUnsignedVarint raw

/-- Events emitted by a connection to protocols
(src/protocol/mod.rs, enum ConnectionEvent). -/
inductive ConnectionEvent where
  | ConnectionEstablished : PeerId → ConnectionService → ConnectionEvent
  | ConnectionClosed : PeerId → ConnectionEvent
  | SubstreamOpened : PeerId → ProtocolName → Direction → BoxedSubstream → ConnectionEvent
  | SubstreamOpenFailure : PeerId → Error → ConnectionEvent
deriving DecidableEq, Repr

/-- True exactly on the two substream events. -/
def ConnectionEvent.isSubstreamEvent : ConnectionEvent → Bool
  | ConnectionEvent.SubstreamOpened _ _ _ _ => true
  | ConnectionEvent.SubstreamOpenFailure _ _ => true
  | _ => false

/-- Supported protocol information (crate::ProtocolInfo, reconstructed from
its two use sites in src/protocol/mod.rs: `info.codec` selects the framing
strategy and `info.tx` is the `Sender<ConnectionEvent>` of the handler
registered for this protocol).  The sender is embedded as the mailbox of
events delivered to that handler so far. -/
structure ProtocolInfo where
  codec : ProtocolCodec
  tx : List ConnectionEvent

/-- Transport context handed to each new connection (crate::TransportContext
as used by ProtocolSet::from_transport_context: a map from protocol name to
that protocol handler information; the keypair field is irrelevant to the
multiplexing core and omitted). -/
structure TransportContext where
  protocols : ProtocolName → Option ProtocolInfo

/-- Supported protocol information of one connection
(src/protocol/mod.rs, struct ProtocolSet). -/
structure ProtocolSet where
  protocols : ProtocolName → Option ProtocolInfo
  rx : List ProtocolEvent

namespace ProtocolSet

/-- `ProtocolSet::from_transport_context`: create the merged queue, send
`ConnectionEstablished { peer, service }` to every installed protocol (the
service is `ConnectionService::new(protocol.clone(), tx.clone())`, counter at
0), then build the set from the context protocol map. -/
def from_transport_context (peer : PeerId) (context : TransportContext) :
    ProtocolSet :=
  { protocols := fun name =>
      (context.protocols name).map fun info =>
        { info with
          tx := info.tx ++
            [ConnectionEvent.ConnectionEstablished peer (ConnectionService.new name)] },
    rx := [] }

/-- `ProtocolSet::report_substream_open`: look `protocol` up; if absent fail
with `ProtocolNotSupported`; otherwise wrap the raw substream with the
registered codec and send one `SubstreamOpened` event to that protocol
handler (`get_mut` + awaited `send`, embedded as a pointwise map update
appending to that handler mailbox). -/
def report_substream_open (self : ProtocolSet) (peer : PeerId)
    (protocol : ProtocolName) (direction : Direction) (substream : RawSubstream) :
    Except Error Unit × ProtocolSet :=
  match self.protocols protocol with
  | some info =>
    let boxed := wrapSubstream info.codec substream
    let updated : ProtocolName → Option ProtocolInfo := fun q =>
      if q = protocol then
        some { info with
          tx := info.tx ++
            [ConnectionEvent.SubstreamOpened peer protocol direction boxed] }
      else self.protocols q
    (Except.ok (), { self with protocols := updated })
  | none => (Except.error (Error.ProtocolNotSupported protocol), self)

/-- `ProtocolSet::report_substream_open_failure`: same lookup and dispatch
discipline, delivering a `SubstreamOpenFailure` event. -/
def report_substream_open_failure (self : ProtocolSet) (protocol : ProtocolName)
    (peer : PeerId) (error : Error) : Except Error Unit × ProtocolSet :=
  match self.protocols protocol with
  | some info =>
    let updated : ProtocolName → Option ProtocolInfo := fun q =>
      if q = protocol then
        some { info with
          tx := info.tx ++ [ConnectionEvent.SubstreamOpenFailure peer error] }
      else self.protocols q
    (Except.ok (), { self with protocols := updated })
  | none => (Except.error (Error.ProtocolNotSupported protocol), self)

end ProtocolSet

/-- The reporting operations a connection driver can invoke on its
`ProtocolSet` after construction (the only means of reporting substream
events on that connection). -/
inductive RouterOp where
  | reportOpen : PeerId → ProtocolName → Direction → RawSubstream → RouterOp
  | reportOpenFailure : ProtocolName → PeerId → Error → RouterOp

/-- State effect of one reporting call. -/
def ProtocolSet.applyOp (self : ProtocolSet) : RouterOp → ProtocolSet
  | RouterOp.reportOpen peer protocol direction raw =>
    (self.report_substream_open peer protocol direction raw).2
  | RouterOp.reportOpenFailure protocol peer error =>
    (self.report_substream_open_failure protocol peer error).2

/-- State effect of a finite sequence of reporting calls. -/
def ProtocolSet.applyOps (self : ProtocolSet) (ops : List RouterOp) : ProtocolSet :=
  ops.foldl ProtocolSet.applyOp self

/-! ## Notification protocol handle (src/protocol/notification/handle.rs) -/

/-- The application verdict on an inbound substream
(crate::protocol::notification::types::ValidationResult). -/
inductive ValidationResult where
  | Accept : ValidationResult
  | Reject : ValidationResult
deriving DecidableEq, Repr

/-- Notification protocol errors.  The handle code constructs only
`ChannelClogged`; the remaining variants of the enum (defined outside the
provided sources) are carried opaquely as `Other`. -/
inductive NotificationError where
  | ChannelClogged : NotificationError
  | Other : Nat → NotificationError
deriving DecidableEq, Repr

/-- A bounded tokio mpsc sender endpoint: its capacity, the messages queued
and not yet drained by the receiver, and whether the receiver was dropped. -/
structure BoundedSender where
  capacity : Nat
  buffer : List (List Nat)
  closed : Bool
deriving DecidableEq, Repr

/-- Notification sink (struct NotificationSink): per-peer object holding both
delivery channels. -/
structure NotificationSink where
  peer : PeerId
  sync_tx : BoundedSender
  async_tx : BoundedSender
deriving DecidableEq, Repr

namespace NotificationSink

/-- `NotificationSink::send_sync_notification`: a non-blocking `try_send` on
the sync channel; any failure (buffer at capacity, or receiver dropped) is
mapped to `ChannelClogged` and nothing is enqueued. -/
def send_sync_notification (self : NotificationSink) (msg : List Nat) :
    Except NotificationError Unit × NotificationSink :=
  if self.sync_tx.closed = true ∨ self.sync_tx.capacity ≤ self.sync_tx.buffer.length then
    (Except.error NotificationError.ChannelClogged, self)
  else
    let tx' : BoundedSender := { self.sync_tx with buffer := self.sync_tx.buffer ++ [msg] }
    (Except.ok (), { self with sync_tx := tx' })

/-- `NotificationSink::send_async_notification`: an awaited `send` on the
async channel; it suspends while the channel is at capacity and then
succeeds, failing (with `PeerDoesntExist(self.peer)`) only if the receiver
was dropped. -/
def send_async_notification (self : NotificationSink) (msg : List Nat) :
    Except Error Unit × NotificationSink :=
  if self.async_tx.closed then
    (Except.error (Error.PeerDoesntExist self.peer), self)
  else
    let tx' : BoundedSender := { self.async_tx with buffer := self.async_tx.buffer ++ [msg] }
    (Except.ok (), { self with async_tx := tx' })

end NotificationSink

/-- Commands issued through the handle into the notification engine control
loop (crate::protocol::notification::types::NotificationCommand). -/
inductive NotificationCommand where
  | OpenSubstream : PeerId → NotificationCommand
  | CloseSubstream : PeerId → NotificationCommand
  | SetHandshake : List Nat → NotificationCommand
  | SubstreamValidated : PeerId → ValidationResult → NotificationCommand
deriving DecidableEq, Repr

/-- The command channel sender held by the handle; `closed` records that the
notification engine (the receiver) has shut down. -/
structure CommandSender where
  buffer : List NotificationCommand
  closed : Bool
deriving DecidableEq, Repr

/-- An awaited `send` on the command channel: fails exactly when the engine
has shut down, in which case nothing is enqueued. -/
def CommandSender.send (self : CommandSender) (cmd : NotificationCommand) :
    Except Unit Unit × CommandSender :=
  if self.closed then (Except.error (), self)
  else (Except.ok (), { self with buffer := self.buffer ++ [cmd] })

/-- Events delivered from the notification engine to the handle
(crate::protocol::notification::types::InnerNotificationEvent). -/
inductive InnerNotificationEvent where
  | ValidateSubstream : ProtocolName → PeerId → List Nat → InnerNotificationEvent
  | NotificationStreamOpened :
      ProtocolName → PeerId → List Nat → NotificationSink → InnerNotificationEvent
  | NotificationStreamClosed : PeerId → InnerNotificationEvent
  | NotificationStreamOpenFailure : PeerId → NotificationError → InnerNotificationEvent
  | NotificationReceived : PeerId → List Nat → InnerNotificationEvent
deriving DecidableEq, Repr

/-- The public notification events surfaced to the application (the sink is
stripped from `NotificationStreamOpened`). -/
inductive NotificationEvent where
  | ValidateSubstream : ProtocolName → PeerId → List Nat → NotificationEvent
  | NotificationStreamOpened : ProtocolName → PeerId → List Nat → NotificationEvent
  | NotificationStreamClosed : PeerId → NotificationEvent
  | NotificationStreamOpenFailure : PeerId → NotificationError → NotificationEvent
  | NotificationReceived : PeerId → List Nat → NotificationEvent
deriving DecidableEq, Repr

/-- Handle allowing the user protocol to interact with the notification
protocol (struct NotificationHandle).  The event receiver is embedded as the
explicit event list fed to `processEvents`. -/
structure NotificationHandle where
  command_tx : CommandSender
  peers : PeerId → Option NotificationSink

namespace NotificationHandle

/-- `NotificationHandle::new`: the peer table starts empty. -/
def new (command_tx : CommandSender) : NotificationHandle :=
  { command_tx := command_tx, peers := fun _ => none }

/-- `NotificationHandle::open_substream`: `PeerAlreadyExists` if the peer is
in the peer table; otherwise send `OpenSubstream { peer }` on the command
channel and — via `.map_or(Ok(()), |_| Ok(()))` — return `Ok(())` whether or
not the send succeeded. -/
def open_substream (self : NotificationHandle) (peer : PeerId) :
    Except Error Unit × NotificationHandle :=
  if (self.peers peer).isSome then
    (Except.error (Error.PeerAlreadyExists peer), self)
  else
    let (_, tx') := self.command_tx.send (NotificationCommand.OpenSubstream peer)
    (Except.ok (), { self with command_tx := tx' })

/-- `NotificationHandle::send_sync_notification`: look the peer up in the
peer table; no sink means `Ok(())` with nothing sent; with a sink, delegate
to `NotificationSink::send_sync_notification` (the `get_mut` in-place
mutation is a pointwise map update). -/
def send_sync_notification (self : NotificationHandle) (peer : PeerId)
    (msg : List Nat) : Except NotificationError Unit × NotificationHandle :=
  match self.peers peer with
  | some sink =>
    let (r, sink') := sink.send_sync_notification msg
    let updated : PeerId → Option NotificationSink := fun q =>
      if q = peer then some sink' else self.peers q
    (r, { self with peers := updated })
  | none => (Except.ok (), self)

/-- `NotificationHandle::send_async_notification`: no sink means
`Err(PeerDoesntExist(peer))`; with a sink, delegate to
`NotificationSink::send_async_notification`. -/
def send_async_notification (self : NotificationHandle) (peer : PeerId)
    (msg : List Nat) : Except Error Unit × NotificationHandle :=
  match self.peers peer with
  | some sink =>
    let (r, sink') := sink.send_async_notification msg
    let updated : PeerId → Option NotificationSink := fun q =>
      if q = peer then some sink' else self.peers q
    (r, { self with peers := updated })
  | none => (Except.error (Error.PeerDoesntExist peer), self)

/-- One step of `<NotificationHandle as Stream>::poll_next` on a received
inner event: `NotificationStreamOpened` inserts the sink into the peer table,
`NotificationStreamClosed` removes the peer, every other event leaves the
peer table untouched; the public event is returned. -/
def processEvent (self : NotificationHandle) (event : InnerNotificationEvent) :
    NotificationEvent × NotificationHandle :=
  match event with
  | InnerNotificationEvent.ValidateSubstream protocol peer handshake =>
    (NotificationEvent.ValidateSubstream protocol peer handshake, self)
  | InnerNotificationEvent.NotificationStreamOpened protocol peer handshake sink =>
    let updated : PeerId → Option NotificationSink := fun q =>
      if q = peer then some sink else self.peers q
    (NotificationEvent.NotificationStreamOpened protocol peer handshake,
      { self with peers := updated })
  | InnerNotificationEvent.NotificationStreamClosed peer =>
    let updated : PeerId → Option NotificationSink := fun q =>
      if q = peer then none else self.peers q
    (NotificationEvent.NotificationStreamClosed peer, { self with peers := updated })
  | InnerNotificationEvent.NotificationStreamOpenFailure peer error =>
    (NotificationEvent.NotificationStreamOpenFailure peer error, self)
  | InnerNotificationEvent.NotificationReceived peer msg =>
    (NotificationEvent.NotificationReceived peer msg, self)

/-- Process a finite sequence of inner events through `poll_next`. -/
def processEvents (self : NotificationHandle)
    (events : List InnerNotificationEvent) : NotificationHandle :=
  events.foldl (fun h ev => (h.processEvent ev).2) self

/-- Send a batch of synchronous notifications back-to-back (no draining in
between), collecting the per-send results. -/
def sendSyncN (self : NotificationHandle) (peer : PeerId) :
    List (List Nat) → List (Except NotificationError Unit) × NotificationHandle
  | [] => ([], self)
  | msg :: rest =>
    let (r, h') := self.send_sync_notification peer msg
    let (rs, h'') := h'.sendSyncN peer rest
    (r :: rs, h'')

end NotificationHandle

/-- Number of successful results in a batch of synchronous sends. -/
def countOk (rs : List (Except NotificationError Unit)) : Nat :=
  rs.countP fun r => match r with | Except.ok _ => true | _ => false

/-- Number of `ChannelClogged` results in a batch of synchronous sends. -/
def countClogged (rs : List (Except NotificationError Unit)) : Nat :=
  rs.countP fun r =>
    match r with | Except.error NotificationError.ChannelClogged => true | _ => false

/-- The membership predicate asserted by the specification (P4): scanning the
event sequence, the most recent lifecycle event (`NotificationStreamOpened`,
`NotificationStreamClosed` or `NotificationStreamOpenFailure`) observed for
the peer is `NotificationStreamOpened`. -/
def specLastLifecycleOpened (peer : PeerId)
    (events : List InnerNotificationEvent) : Bool :=
  events.foldl (fun acc ev =>
    match ev with
    | InnerNotificationEvent.NotificationStreamOpened _ p _ _ =>
      if p = peer then true else acc
    | InnerNotificationEvent.NotificationStreamClosed p =>
      if p = peer then false else acc
    | InnerNotificationEvent.NotificationStreamOpenFailure p _ =>
      if p = peer then false else acc
    | _ => acc) false

/-- The membership predicate the code actually implements: the most recent
`NotificationStreamOpened` / `NotificationStreamClosed` event for the peer is
`NotificationStreamOpened` (`NotificationStreamOpenFailure` has no effect on
the peer table). -/
def lastOpenCloseOpened (peer : PeerId)
    (events : List InnerNotificationEvent) : Bool :=
  events.foldl (fun acc ev =>
    match ev with
    | InnerNotificationEvent.NotificationStreamOpened _ p _ _ =>
      if p = peer then true else acc
    | InnerNotificationEvent.NotificationStreamClosed p =>
      if p = peer then false else acc
    | _ => acc) false

/-! ## Protocol registration (src/new.rs) -/

namespace New

/-- The receive side handed to a protocol handler by registration
(src/new.rs, struct ConnectionService).  `ConnectionService::new` creates a
fresh bound channel pair; channel identity is modelled by the number drawn
from the context fresh supply. -/
structure ConnectionService where
  chan : Nat
deriving DecidableEq, Repr

/-- Transport context (src/new.rs, struct TransportContext): the registration
map from protocol name to the send side of that protocol handler channel
(channels by identity), plus the model fresh-identity supply for newly
created channels.  The keypair field plays no role in registration and is
omitted. -/
structure TransportContext where
  protocols : ProtocolName → Option Nat
  next_chan : Nat

/-- `TransportContext::new`: empty registration map. -/
def TransportContext.new : TransportContext :=
  { protocols := fun _ => none, next_chan := 0 }

/-- `TransportContext::add_protocol`: create a fresh channel pair
(`ConnectionService::new()`), then `self.protocols.insert(protocol, tx)`;
`insert` stores the new sender unconditionally and returns the previous
value, on which the result is decided: `Some(_)` gives
`Err(ProtocolAlreadyExists)`, `None` gives `Ok(service)`. -/
def TransportContext.add_protocol (self : TransportContext)
    (protocol : ProtocolName) : Except Error ConnectionService × TransportContext :=
  let tx := self.next_chan
  let service : ConnectionService := { chan := tx }
  let old := self.protocols protocol
  let updated : ProtocolName → Option Nat := fun q =>
    if q = protocol then some tx else self.protocols q
  let self' : TransportContext :=
    { protocols := updated, next_chan := self.next_chan + 1 }
  match old with
  | some _ => (Except.error (Error.ProtocolAlreadyExists protocol), self')
  | none => (Except.ok service, self')

/-- Freshness invariant of the channel-identity supply: every stored sender
was drawn from the supply earlier. -/
def TransportContext.WF (self : TransportContext) : Prop :=
  ∀ q c, self.protocols q = some c → c < self.next_chan

end New

/-! ## Theorems -/

/-- Closed form of `n` successive `open_substream` calls: the returned ids
are the `n` consecutive numbers from the starting counter, the counter
advances by `n`, and the merged queue receives one matching `OpenSubstream`
request per id, in order. -/
theorem ConnectionService.openN_eq (n : Nat) (s : ConnectionService)
    (q : List ProtocolEvent) :
    ConnectionService.openN n s q =
      (List.range' s.next_substream_id n,
       { s with next_substream_id := s.next_substream_id + n },
       q ++ (List.range' s.next_substream_id n).map
         (fun i => ProtocolEvent.OpenSubstream s.protocol i)) := by
  induction n generalizing s q with
  | zero => simp [ConnectionService.openN]
  | succ n ih =>
    simp only [ConnectionService.openN, ConnectionService.openSubstream,
      ConnectionService.nextSubstreamId, ih, List.range'_succ, List.map_cons,
      Prod.mk.injEq]
    refine ⟨trivial, ?_, ?_⟩
    · have : s.next_substream_id + 1 + n = s.next_substream_id + (n + 1) := by ring
      rw [this]
    · simp

/-- C2: on a single uncloned handle, the ids returned by `n` successive
successful `open_substream` calls start at 0 and increase by exactly 1 per
call (they are `0, 1, …, n-1`), hence are pairwise distinct and strictly
increasing in issuance order, and the `OpenSubstream` requests sent to the
router merged queue carry exactly those ids in the same order. -/
theorem claim_C2_substream_id_sequence (n : Nat) (p : ProtocolName) :
    ((ConnectionService.new p).openN n []).1 = List.range n ∧
    List.Pairwise (· < ·) ((ConnectionService.new p).openN n []).1 ∧
    ((ConnectionService.new p).openN n []).2.2 =
      (((ConnectionService.new p).openN n []).1).map
        (fun i => ProtocolEvent.OpenSubstream p i) := by
  have h := ConnectionService.openN_eq n (ConnectionService.new p) []
  have hids : ((ConnectionService.new p).openN n []).1 = List.range n := by
    rw [h, List.range_eq_range']; rfl
  refine ⟨hids, ?_, ?_⟩
  · rw [hids]; exact List.pairwise_lt_range n
  · rw [h]; rfl

/-- C3 counterexample: the claim asserts that ids issued across a handle and
its clones are globally pairwise distinct.  On the code, `derive(Clone)`
copies the plain `usize` counter, so after cloning a fresh handle the
original and the clone each return the same id 0 from their first
`open_substream` call: the same id is issued twice for the same
(connection, protocol) pair. -/
theorem claim_C3_counterexample :
    (((ConnectionService.new "/chat/1").clone).openSubstream []).1 =
      ((ConnectionService.new "/chat/1").openSubstream []).1 ∧
    (((ConnectionService.new "/chat/1").clone).openSubstream []).1 = 0 :=
  ⟨rfl, rfl⟩

/-- C3 amended: cloning copies the counter value at clone time, so a clone
and the handle it was cloned from issue the very same next id — global
distinctness across clones does not hold.  Ids remain pairwise distinct
(strictly increasing) within each single handle. -/
theorem claim_C3_clone_copies_counter (s : ConnectionService)
    (q q' : List ProtocolEvent) :
    ((s.clone).openSubstream q').1 = (s.openSubstream q).1 ∧
    ∀ n, List.Pairwise (· < ·) ((s.openN n q).1) := by
  refine ⟨rfl, fun n => ?_⟩
  rw [ConnectionService.openN_eq]
  exact List.pairwise_lt_range' s.next_substream_id n

/-- C1: `report_substream_open(peer, Q, direction, substream)` delivers
exactly one `SubstreamOpened` event — framed with the codec registered for Q
— to the handler channel registered under Q, and leaves every other
registered handler channel untouched; if Q is not in the protocol map, no
handler channel changes and the call fails with `ProtocolNotSupported`.
`report_substream_open_failure` follows the same lookup and dispatch
discipline for `SubstreamOpenFailure`. -/
theorem claim_C1_routing (ps : ProtocolSet) (peer : PeerId) (q : ProtocolName)
    (d : Direction) (raw : RawSubstream) (e : Error) :
    (∀ info, ps.protocols q = some info →
      (ps.report_substream_open peer q d raw).1 = Except.ok () ∧
      (ps.report_substream_open peer q d raw).2.protocols q =
        some { info with tx := info.tx ++
          [ConnectionEvent.SubstreamOpened peer q d (wrapSubstream info.codec raw)] } ∧
      (∀ q', q' ≠ q →
        (ps.report_substream_open peer q d raw).2.protocols q' = ps.protocols q')) ∧
    (ps.protocols q = none →
      ps.report_substream_open peer q d raw =
        (Except.error (Error.ProtocolNotSupported q), ps)) ∧
    (∀ info, ps.protocols q = some info →
      (ps.report_substream_open_failure q peer e).1 = Except.ok () ∧
      (ps.report_substream_open_failure q peer e).2.protocols q =
        some { info with
          tx := info.tx ++ [ConnectionEvent.SubstreamOpenFailure peer e] } ∧
      (∀ q', q' ≠ q →
        (ps.report_substream_open_failure q peer e).2.protocols q' =
          ps.protocols q')) ∧
    (ps.protocols q = none →
      ps.report_substream_open_failure q peer e =
        (Except.error (Error.ProtocolNotSupported q), ps)) := by
  refine ⟨?_, ?_, ?_, ?_⟩
  · intro info hq
    refine ⟨?_, ?_, ?_⟩
    · simp [ProtocolSet.report_substream_open, hq]
    · simp [ProtocolSet.report_substream_open, hq]
    · intro q' hne
      simp [ProtocolSet.report_substream_open, hq, hne]
  · intro hq
    simp [ProtocolSet.report_substream_open, hq]
  · intro info hq
    refine ⟨?_, ?_, ?_⟩
    · simp [ProtocolSet.report_substream_open_failure, hq]
    · simp [ProtocolSet.report_substream_open_failure, hq]
    · intro q' hne
      simp [ProtocolSet.report_substream_open_failure, hq, hne]
  · intro hq
    simp [ProtocolSet.report_substream_open_failure, hq]

/-- A two-protocol router state used to exercise the routing theorem. -/
def psEx : ProtocolSet :=
  { protocols := fun q =>
      if q = "/chat/1" then some { codec := ProtocolCodec.Identity 64, tx := [] }
      else if q = "/ping/1" then some { codec := ProtocolCodec.UnsignedVarint, tx := [] }
      else none,
    rx := [] }

/-- Witness for C1 at a concrete router with protocols "/chat/1" and
"/ping/1": opening on "/chat/1" succeeds, delivers the framed substream to
"/chat/1" only, and an unregistered name fails with `ProtocolNotSupported`
leaving the state unchanged. -/
theorem claim_C1_routing_witness :
    (psEx.report_substream_open 7 "/chat/1" Direction.Inbound 3).1 = Except.ok () ∧
    (psEx.report_substream_open 7 "/chat/1" Direction.Inbound 3).2.protocols "/chat/1" =
      some { codec := ProtocolCodec.Identity 64,
             tx := [ConnectionEvent.SubstreamOpened 7 "/chat/1" Direction.Inbound
               (BoxedSubstream.framedIdentity 64 3)] } ∧
    (psEx.report_substream_open 7 "/chat/1" Direction.Inbound 3).2.protocols "/ping/1" =
      some { codec := ProtocolCodec.UnsignedVarint, tx := [] } ∧
    psEx.report_substream_open 7 "/none/1" Direction.Inbound 3 =
      (Except.error (Error.ProtocolNotSupported "/none/1"), psEx) := by
  obtain ⟨hsome, hnone, _, _⟩ :=
    claim_C1_routing psEx 7 "/chat/1" Direction.Inbound 3
      (Error.ProtocolNotSupported "/none/1")
  obtain ⟨h1, h2, h3⟩ :=
    hsome { codec := ProtocolCodec.Identity 64, tx := [] } (by rfl)
  obtain ⟨_, hnone', _, _⟩ :=
    claim_C1_routing psEx 7 "/none/1" Direction.Inbound 3
      (Error.ProtocolNotSupported "/none/1")
  exact ⟨h1, h2, by simpa using h3 "/ping/1" (by decide), hnone' (by rfl)⟩

/-- C5: when the peer has no sink in the peer table,
`send_sync_notification` is a silent no-op returning `Ok(())` and changing
nothing, while `send_async_notification` sends nothing and returns
`PeerDoesntExist(peer)`. -/
theorem claim_C5_sends_to_closed_peer (h : NotificationHandle) (peer : PeerId)
    (msg msg' : List Nat) (hnone : h.peers peer = none) :
    h.send_sync_notification peer msg = (Except.ok (), h) ∧
    h.send_async_notification peer msg' =
      (Except.error (Error.PeerDoesntExist peer), h) := by
  constructor
  · simp [NotificationHandle.send_sync_notification, hnone]
  · simp [NotificationHandle.send_async_notification, hnone]

/-- An open command channel. -/
def cmdTxEx : CommandSender := { buffer := [], closed := false }

/-- A command channel whose engine has shut down. -/
def cmdTxClosed : CommandSender := { buffer := [], closed := true }

/-- A handle with an empty peer table. -/
def handleNoPeers : NotificationHandle := NotificationHandle.new cmdTxEx

/-- Witness for C5 at a concrete handle with an empty peer table. -/
theorem claim_C5_sends_to_closed_peer_witness :
    handleNoPeers.send_sync_notification 0 [1, 2] = (Except.ok (), handleNoPeers) ∧
    handleNoPeers.send_async_notification 0 [3] =
      (Except.error (Error.PeerDoesntExist 0), handleNoPeers) :=
  claim_C5_sends_to_closed_peer handleNoPeers 0 [1, 2] [3] rfl

/-- C10: `NotificationHandle::open_substream(peer)` fails only with
`PeerAlreadyExists` when the peer already has a sink in the peer table; in
every other case it returns `Ok(())`, and in particular when the command
channel is closed (engine shut down) the send failure is swallowed: the
call still returns `Ok(())` and the command channel is left untouched. -/
theorem claim_C10_open_substream_errors (h : NotificationHandle) (peer : PeerId) :
    ((h.peers peer).isSome →
      h.open_substream peer = (Except.error (Error.PeerAlreadyExists peer), h)) ∧
    ((h.peers peer).isSome = false →
      (h.open_substream peer).1 = Except.ok ()) ∧
    (h.command_tx.closed = true →
      (h.open_substream peer).2.command_tx = h.command_tx) := by
  refine ⟨?_, ?_, ?_⟩
  · intro hy
    simp [NotificationHandle.open_substream, hy]
  · intro hn
    simp [NotificationHandle.open_substream, hn]
  · intro hc
    by_cases hy : (h.peers peer).isSome
    · simp [NotificationHandle.open_substream, hy]
    · simp [NotificationHandle.open_substream, hy, CommandSender.send, hc]

/-- A sink over fresh channels, for populating example peer tables. -/
def sinkEx : NotificationSink :=
  { peer := 0,
    sync_tx := { capacity := 4, buffer := [], closed := false },
    async_tx := { capacity := 4, buffer := [], closed := false } }

/-- A handle whose peer table contains peer 0. -/
def handleWithPeer : NotificationHandle :=
  { command_tx := cmdTxEx, peers := fun q => if q = 0 then some sinkEx else none }

/-- A handle with an empty peer table whose engine has shut down. -/
def handleClosedTx : NotificationHandle := NotificationHandle.new cmdTxClosed

/-- Witness for C10: with peer 0 present the call fails with
`PeerAlreadyExists(0)`; on a handle whose command channel is closed, opening
to the absent peer 5 still returns `Ok(())` with the channel untouched. -/
theorem claim_C10_open_substream_errors_witness :
    handleWithPeer.open_substream 0 =
      (Except.error (Error.PeerAlreadyExists 0), handleWithPeer) ∧
    (handleClosedTx.open_substream 5).1 = Except.ok () ∧
    (handleClosedTx.open_substream 5).2.command_tx = cmdTxClosed :=
  ⟨(claim_C10_open_substream_errors handleWithPeer 0).1 (by rfl),
   (claim_C10_open_substream_errors handleClosedTx 5).2.1 (by rfl),
   (claim_C10_open_substream_errors handleClosedTx 5).2.2 (by rfl)⟩

/-- C7: `add_protocol(name)` fails with `ProtocolAlreadyExists` exactly when
the name is already registered; on a fresh name it succeeds and returns the
bound handler channel; and immediately after any `add_protocol(name)` call a
second registration under the same name returns the error. -/
theorem claim_C7_duplicate_registration (ctx : New.TransportContext)
    (p : ProtocolName) :
    ((ctx.protocols p).isSome →
      (ctx.add_protocol p).1 = Except.error (Error.ProtocolAlreadyExists p)) ∧
    (ctx.protocols p = none →
      (ctx.add_protocol p).1 = Except.ok { chan := ctx.next_chan }) ∧
    ((ctx.add_protocol p).2.add_protocol p).1 =
      Except.error (Error.ProtocolAlreadyExists p) := by
  refine ⟨?_, ?_, ?_⟩
  · intro hy
    rcases ho : ctx.protocols p with _ | c
    · rw [ho] at hy; simp at hy
    · simp [New.TransportContext.add_protocol, ho]
  · intro hn
    simp [New.TransportContext.add_protocol, hn]
  · rcases ho : ctx.protocols p with _ | c <;>
      simp [New.TransportContext.add_protocol, ho]

/-- Witness for C7 at a concrete context: registering "/ping/1" on the empty
context succeeds with the bound channel, and a second registration under the
same name returns `ProtocolAlreadyExists`. -/
theorem claim_C7_duplicate_registration_witness :
    ((New.TransportContext.new).add_protocol "/ping/1").1 =
      Except.ok { chan := 0 } ∧
    (((New.TransportContext.new).add_protocol "/ping/1").2.add_protocol "/ping/1").1 =
      Except.error (Error.ProtocolAlreadyExists "/ping/1") :=
  ⟨(claim_C7_duplicate_registration New.TransportContext.new "/ping/1").2.1 rfl,
   (claim_C7_duplicate_registration New.TransportContext.new "/ping/1").2.2⟩

/-- C9: on the duplicate-registration error path the registration map is
mutated anyway: `insert` runs before the error is decided, so the previously
stored handler channel for the name is replaced by the newly created channel
(fresh by the supply invariant, hence different from the old one) and only
then is `ProtocolAlreadyExists` returned. -/
theorem claim_C9_error_path_mutates_map (ctx : New.TransportContext)
    (p : ProtocolName) (old : Nat) (hold : ctx.protocols p = some old)
    (hwf : ctx.WF) :
    (ctx.add_protocol p).1 = Except.error (Error.ProtocolAlreadyExists p) ∧
    (ctx.add_protocol p).2.protocols p = some ctx.next_chan ∧
    ctx.next_chan ≠ old := by
  refine ⟨?_, ?_, ?_⟩
  · simp [New.TransportContext.add_protocol, hold]
  · simp [New.TransportContext.add_protocol, hold]
  · exact fun h => absurd (hwf p old hold) (by omega)

/-- A context with "/chat/1" already registered (channel 0, supply at 1). -/
def ctxEx9 : New.TransportContext :=
  ((New.TransportContext.new).add_protocol "/chat/1").2

/-- Witness for C9: re-registering "/chat/1" on `ctxEx9` returns the error,
yet the stored channel for "/chat/1" has changed from 0 to the fresh 1. -/
theorem claim_C9_error_path_mutates_map_witness :
    (ctxEx9.add_protocol "/chat/1").1 =
      Except.error (Error.ProtocolAlreadyExists "/chat/1") ∧
    (ctxEx9.add_protocol "/chat/1").2.protocols "/chat/1" = some 1 ∧
    (1 : Nat) ≠ 0 := by
  have hwf : ctxEx9.WF := by
    intro q c hqc
    simp only [ctxEx9, New.TransportContext.add_protocol,
      New.TransportContext.new] at hqc ⊢
    split at hqc
    · cases hqc; omega
    · cases hqc
  have h := claim_C9_error_path_mutates_map ctxEx9 "/chat/1" 0 (by rfl) hwf
  exact h

/-- Peer-table membership after processing events, as a fold over the event
sequence starting from the current membership bit: `NotificationStreamOpened`
for the peer sets it, `NotificationStreamClosed` for the peer clears it, and
every other event — including `NotificationStreamOpenFailure` — leaves it
unchanged. -/
theorem NotificationHandle.processEvents_membership (h : NotificationHandle)
    (events : List InnerNotificationEvent) (peer : PeerId) :
    ((h.processEvents events).peers peer).isSome =
      events.foldl (fun acc ev =>
        match ev with
        | InnerNotificationEvent.NotificationStreamOpened _ p _ _ =>
          if p = peer then true else acc
        | InnerNotificationEvent.NotificationStreamClosed p =>
          if p = peer then false else acc
        | _ => acc) ((h.peers peer).isSome) := by
  induction events generalizing h with
  | nil => rfl
  | cons ev rest ih =>
    cases ev with
    | ValidateSubstream protocol p handshake =>
      simpa [NotificationHandle.processEvents, NotificationHandle.processEvent]
        using ih h
    | NotificationStreamOpened protocol p handshake sink =>
      have step :
          h.processEvents
              (InnerNotificationEvent.NotificationStreamOpened protocol p handshake sink
                :: rest) =
            ((h.processEvent
              (InnerNotificationEvent.NotificationStreamOpened protocol p handshake
                sink)).2).processEvents rest := rfl
      rw [step, ih, List.foldl_cons]
      congr 1
      by_cases hp : p = peer
      · subst hp; simp [NotificationHandle.processEvent]
      · simp only [NotificationHandle.processEvent]
        rw [if_neg (Ne.symm hp), if_neg hp]
    | NotificationStreamClosed p =>
      have step :
          h.processEvents (InnerNotificationEvent.NotificationStreamClosed p :: rest) =
            ((h.processEvent
              (InnerNotificationEvent.NotificationStreamClosed p)).2).processEvents
              rest := rfl
      rw [step, ih, List.foldl_cons]
      congr 1
      by_cases hp : p = peer
      · subst hp; simp [NotificationHandle.processEvent]
      · simp only [NotificationHandle.processEvent]
        rw [if_neg (Ne.symm hp), if_neg hp]
    | NotificationStreamOpenFailure p error =>
      simpa [NotificationHandle.processEvents, NotificationHandle.processEvent]
        using ih h
    | NotificationReceived p msg =>
      simpa [NotificationHandle.processEvents, NotificationHandle.processEvent]
        using ih h

/-- The event sequence refuting C4 as stated: a stream-opened event for peer
0 followed by a stream-open-failure event for peer 0. -/
def evsC4 : List InnerNotificationEvent :=
  [InnerNotificationEvent.NotificationStreamOpened "/n/1" 0 [] sinkEx,
   InnerNotificationEvent.NotificationStreamOpenFailure 0 (NotificationError.Other 0)]

/-- C4 counterexample: after `NotificationStreamOpened` for peer 0 followed
by `NotificationStreamOpenFailure` for peer 0, the most recent lifecycle
event for 0 is an open failure — the claim then demands that 0 be absent
from the peer table — yet the code leaves the sink in the table, because
`poll_next` does not remove peers on `NotificationStreamOpenFailure`. -/
theorem claim_C4_counterexample :
    (((NotificationHandle.new cmdTxEx).processEvents evsC4).peers 0).isSome = true ∧
    specLastLifecycleOpened 0 evsC4 = false :=
  ⟨rfl, rfl⟩

/-- C4 amended: a peer has an entry in the peer table after processing a
finite event sequence if and only if the most recent
`NotificationStreamOpened` / `NotificationStreamClosed` event observed for
that peer is `NotificationStreamOpened`; `NotificationStreamOpenFailure`
(like validation and received-notification events) has no effect on the peer
table. -/
theorem claim_C4_sink_lifecycle (tx : CommandSender)
    (events : List InnerNotificationEvent) (peer : PeerId) :
    (((NotificationHandle.new tx).processEvents events).peers peer).isSome =
      lastOpenCloseOpened peer events := by
  rw [NotificationHandle.processEvents_membership]
  rfl

/-- Unfolding one step of a batch of synchronous sends. -/
theorem NotificationHandle.sendSyncN_cons (h : NotificationHandle) (peer : PeerId)
    (msg : List Nat) (rest : List (List Nat)) :
    h.sendSyncN peer (msg :: rest) =
      ((h.send_sync_notification peer msg).1 ::
        ((h.send_sync_notification peer msg).2.sendSyncN peer rest).1,
       ((h.send_sync_notification peer msg).2.sendSyncN peer rest).2) := rfl

/-- While the peer has a sink, the number of synchronous sends that succeed
in a back-to-back batch is bounded by the free space of the sink sync
channel. -/
theorem NotificationHandle.sendSyncN_countOk (h : NotificationHandle)
    (peer : PeerId) (sink : NotificationSink) (msgs : List (List Nat))
    (hs : h.peers peer = some sink) :
    countOk (h.sendSyncN peer msgs).1 ≤
      sink.sync_tx.capacity - sink.sync_tx.buffer.length := by
  induction msgs generalizing h sink with
  | nil => simp [NotificationHandle.sendSyncN, countOk]
  | cons msg rest ih =>
    rw [NotificationHandle.sendSyncN_cons]
    by_cases hc : sink.sync_tx.closed = true ∨
        sink.sync_tx.capacity ≤ sink.sync_tx.buffer.length
    · have hstep : h.send_sync_notification peer msg =
          (Except.error NotificationError.ChannelClogged,
           { h with peers := fun q => if q = peer then some sink else h.peers q }) := by
        simp [NotificationHandle.send_sync_notification, hs,
          NotificationSink.send_sync_notification, hc]
      have hpeers :
          ({ h with peers := fun q => if q = peer then some sink else h.peers q } :
            NotificationHandle).peers peer = some sink := by simp
      rw [hstep]
      have hrec := ih _ _ hpeers
      simp [countOk, List.countP_cons] at hrec ⊢
      omega
    · have hstep : h.send_sync_notification peer msg =
          (Except.ok (),
           { h with peers := fun q =>
              if q = peer then
                some { sink with sync_tx :=
                  { sink.sync_tx with buffer := sink.sync_tx.buffer ++ [msg] } }
              else h.peers q }) := by
        simp [NotificationHandle.send_sync_notification, hs,
          NotificationSink.send_sync_notification, hc]
      have hpeers :
          ({ h with peers := fun q =>
              if q = peer then
                some { sink with sync_tx :=
                  { sink.sync_tx with buffer := sink.sync_tx.buffer ++ [msg] } }
              else h.peers q } : NotificationHandle).peers peer =
            some { sink with sync_tx :=
              { sink.sync_tx with buffer := sink.sync_tx.buffer ++ [msg] } } := by simp
      rw [hstep]
      have hrec := ih _ _ hpeers
      simp [countOk, List.countP_cons] at hrec ⊢
      push_neg at hc
      omega

/-- Every result of a synchronous send is either success or
`ChannelClogged`, so the two counts partition the batch. -/
theorem NotificationHandle.sendSyncN_count_partition (h : NotificationHandle)
    (peer : PeerId) (msgs : List (List Nat)) :
    countOk (h.sendSyncN peer msgs).1 + countClogged (h.sendSyncN peer msgs).1 =
      msgs.length := by
  induction msgs generalizing h with
  | nil => simp [NotificationHandle.sendSyncN, countOk, countClogged]
  | cons msg rest ih =>
    rw [NotificationHandle.sendSyncN_cons]
    have hr : (h.send_sync_notification peer msg).1 = Except.ok () ∨
        (h.send_sync_notification peer msg).1 =
          Except.error NotificationError.ChannelClogged := by
      unfold NotificationHandle.send_sync_notification
      cases hp : h.peers peer with
      | none => simp
      | some sink =>
        simp only [NotificationSink.send_sync_notification]
        split <;> simp
    have hrec := ih ((h.send_sync_notification peer msg).2)
    rcases hr with hr | hr <;>
      simp [countOk, countClogged, List.countP_cons, hr] <;>
      simp only [countOk, countClogged] at hrec <;>
      omega

/-- C6: with the sink for the peer present, a synchronous send against a
saturated sync channel fails immediately with `ChannelClogged`, enqueuing
nothing and leaving the handle unchanged; consequently a back-to-back batch
of N synchronous sends with no draining has at most C successes and at
least N − C `ChannelClogged` results, where C is the channel capacity. -/
theorem claim_C6_sync_backpressure (h : NotificationHandle) (peer : PeerId)
    (sink : NotificationSink) (msg : List Nat) (msgs : List (List Nat))
    (hs : h.peers peer = some sink) :
    (sink.sync_tx.capacity ≤ sink.sync_tx.buffer.length →
      h.send_sync_notification peer msg =
        (Except.error NotificationError.ChannelClogged, h)) ∧
    countOk (h.sendSyncN peer msgs).1 ≤ sink.sync_tx.capacity ∧
    msgs.length - sink.sync_tx.capacity ≤ countClogged (h.sendSyncN peer msgs).1 := by
  refine ⟨?_, ?_, ?_⟩
  · intro hsat
    have hupd : (fun q => if q = peer then some sink else h.peers q) = h.peers := by
      funext q
      by_cases hq : q = peer
      · subst hq; rw [if_pos rfl, hs]
      · rw [if_neg hq]
    have hstep : h.send_sync_notification peer msg =
        (Except.error NotificationError.ChannelClogged,
         { h with peers := fun q => if q = peer then some sink else h.peers q }) := by
      simp [NotificationHandle.send_sync_notification, hs,
        NotificationSink.send_sync_notification, Or.inr hsat]
    rw [hstep, hupd]
  · have h1 := NotificationHandle.sendSyncN_countOk h peer sink msgs hs
    omega
  · have h1 := NotificationHandle.sendSyncN_countOk h peer sink msgs hs
    have h2 := NotificationHandle.sendSyncN_count_partition h peer msgs
    omega

/-- A sink whose sync channel (capacity 4) is already saturated. -/
def sinkFull : NotificationSink :=
  { peer := 0,
    sync_tx := { capacity := 4, buffer := [[1], [2], [3], [4]], closed := false },
    async_tx := { capacity := 4, buffer := [], closed := false } }

/-- A handle whose peer 0 has a saturated sync channel. -/
def handleFull : NotificationHandle :=
  { command_tx := cmdTxEx, peers := fun q => if q = 0 then some sinkFull else none }

/-- Ten distinct notifications sent back-to-back. -/
def msgs10 : List (List Nat) := (List.range 10).map fun i => [i]

/-- Witness for C6: on the saturated channel the send fails with
`ChannelClogged` and changes nothing; sending 10 notifications into the
fresh capacity-4 channel of `handleWithPeer` yields at most 4 successes and
at least 6 `ChannelClogged` results. -/
theorem claim_C6_sync_backpressure_witness :
    handleFull.send_sync_notification 0 [9] =
      (Except.error NotificationError.ChannelClogged, handleFull) ∧
    countOk (handleWithPeer.sendSyncN 0 msgs10).1 ≤ 4 ∧
    (10 : Nat) - 4 ≤ countClogged (handleWithPeer.sendSyncN 0 msgs10).1 := by
  have h1 := (claim_C6_sync_backpressure handleFull 0 sinkFull [9] [] rfl).1
    (by decide)
  have h2 := claim_C6_sync_backpressure handleWithPeer 0 sinkEx [] msgs10 rfl
  exact ⟨h1, h2.2.1, h2.2.2⟩

/-- One reporting call on a `ProtocolSet` either leaves a handler mailbox
unchanged or appends a single substream event to it, preserving the shape
"prior events, then only substream events". -/
theorem ProtocolSet.applyOp_mailbox (ps : ProtocolSet) (op : RouterOp)
    (q : ProtocolName) (c : ProtocolCodec) (t rest : List ConnectionEvent)
    (hq : ps.protocols q = some { codec := c, tx := t ++ rest })
    (hrest : ∀ ev ∈ rest, ev.isSubstreamEvent = true) :
    ∃ rest', (ps.applyOp op).protocols q = some { codec := c, tx := t ++ rest' } ∧
      ∀ ev ∈ rest', ev.isSubstreamEvent = true := by
  cases op with
  | reportOpen peer k d raw =>
    cases hk : ps.protocols k with
    | none =>
      simp only [ProtocolSet.applyOp, ProtocolSet.report_substream_open, hk]
      exact ⟨rest, hq, hrest⟩
    | some info =>
      by_cases hqk : q = k
      · subst hqk
        rw [hq] at hk
        injection hk with hk'
        subst hk'
        simp only [ProtocolSet.applyOp, ProtocolSet.report_substream_open, hq]
        refine ⟨rest ++
          [ConnectionEvent.SubstreamOpened peer q d (wrapSubstream c raw)], ?_, ?_⟩
        · simp
        · intro ev hev
          rcases List.mem_append.mp hev with hev | hev
          · exact hrest ev hev
          · simp only [List.mem_singleton] at hev
            subst hev
            rfl
      · simp only [ProtocolSet.applyOp, ProtocolSet.report_substream_open, hk]
        refine ⟨rest, ?_, hrest⟩
        simp [hqk, hq]
  | reportOpenFailure k peer e =>
    cases hk : ps.protocols k with
    | none =>
      simp only [ProtocolSet.applyOp, ProtocolSet.report_substream_open_failure, hk]
      exact ⟨rest, hq, hrest⟩
    | some info =>
      by_cases hqk : q = k
      · subst hqk
        rw [hq] at hk
        injection hk with hk'
        subst hk'
        simp only [ProtocolSet.applyOp, ProtocolSet.report_substream_open_failure, hq]
        refine ⟨rest ++ [ConnectionEvent.SubstreamOpenFailure peer e], ?_, ?_⟩
        · simp
        · intro ev hev
          rcases List.mem_append.mp hev with hev | hev
          · exact hrest ev hev
          · simp only [List.mem_singleton] at hev
            subst hev
            rfl
      · simp only [ProtocolSet.applyOp, ProtocolSet.report_substream_open_failure, hk]
        refine ⟨rest, ?_, hrest⟩
        simp [hqk, hq]

/-- A finite sequence of reporting calls only ever appends substream events
to a handler mailbox. -/
theorem ProtocolSet.applyOps_mailbox (ops : List RouterOp) (ps : ProtocolSet)
    (q : ProtocolName) (c : ProtocolCodec) (t rest : List ConnectionEvent)
    (hq : ps.protocols q = some { codec := c, tx := t ++ rest })
    (hrest : ∀ ev ∈ rest, ev.isSubstreamEvent = true) :
    ∃ rest', (ps.applyOps ops).protocols q = some { codec := c, tx := t ++ rest' } ∧
      ∀ ev ∈ rest', ev.isSubstreamEvent = true := by
  induction ops generalizing ps rest with
  | nil => exact ⟨rest, hq, hrest⟩
  | cons op ops ih =>
    obtain ⟨rest1, h1, h2⟩ := ProtocolSet.applyOp_mailbox ps op q c t rest hq hrest
    exact ih (ps.applyOp op) rest1 h1 h2

/-- C8: for every connection, `from_transport_context` delivers
`ConnectionEstablished` to every registered handler before returning the
`ProtocolSet`, and the `ProtocolSet` reporting calls — the only means of
reporting substream events on the connection — only ever append substream
events afterwards: in every handler mailbox the `ConnectionEstablished` of
this connection strictly precedes every `SubstreamOpened` /
`SubstreamOpenFailure` it delivers. -/
theorem claim_C8_establishment_precedes (peer : PeerId) (ctx : TransportContext)
    (ops : List RouterOp) (q : ProtocolName) (info0 : ProtocolInfo)
    (h : ctx.protocols q = some info0) :
    ∃ rest,
      ((ProtocolSet.from_transport_context peer ctx).applyOps ops).protocols q =
        some { codec := info0.codec,
               tx := info0.tx ++
                 ConnectionEvent.ConnectionEstablished peer (ConnectionService.new q) ::
                   rest } ∧
      ∀ ev ∈ rest, ev.isSubstreamEvent = true := by
  have h0 : (ProtocolSet.from_transport_context peer ctx).protocols q =
      some { codec := info0.codec,
             tx := (info0.tx ++
               [ConnectionEvent.ConnectionEstablished peer
                 (ConnectionService.new q)]) ++ [] } := by
    simp [ProtocolSet.from_transport_context, h]
  obtain ⟨rest, h1, h2⟩ :=
    ProtocolSet.applyOps_mailbox ops (ProtocolSet.from_transport_context peer ctx)
      q info0.codec
      (info0.tx ++
        [ConnectionEvent.ConnectionEstablished peer (ConnectionService.new q)])
      [] h0 (by simp)
  refine ⟨rest, ?_, h2⟩
  rw [h1]
  simp

/-- A one-protocol context for exercising the ordering theorem. -/
def ctxC8 : TransportContext :=
  { protocols := fun q =>
      if q = "/chat/1" then some { codec := ProtocolCodec.Identity 64, tx := [] }
      else none }

/-- A connection trace: one substream opened and one substream open
failure reported after construction. -/
def opsC8 : List RouterOp :=
  [RouterOp.reportOpen 5 "/chat/1" Direction.Inbound 0,
   RouterOp.reportOpenFailure "/chat/1" 5 (Error.PeerDoesntExist 5)]

/-- Witness for C8 at a concrete connection on `ctxC8` running two
reporting calls. -/
theorem claim_C8_establishment_precedes_witness :
    ∃ rest,
      ((ProtocolSet.from_transport_context 5 ctxC8).applyOps opsC8).protocols
          "/chat/1" =
        some { codec := ProtocolCodec.Identity 64,
               tx := [] ++
                 ConnectionEvent.ConnectionEstablished 5
                   (ConnectionService.new "/chat/1") :: rest } ∧
      ∀ ev ∈ rest, ev.isSubstreamEvent = true :=
  claim_C8_establishment_precedes 5 ctxC8 opsC8 "/chat/1"
    { codec := ProtocolCodec.Identity 64, tx := [] } rfl
